import Mathlib

/-!
Verification of the cloud media platform backend (auth routes, media routes,
media helpers) against its natural-language specification.

The Python sources are shallowly embedded: each route handler becomes a pure
Lean function parametrised over an environment record that stands for the
external collaborators (document store, blob store, password/JWT utilities,
JSON decoding, clock and uuid generation).  Raised exceptions become `Except`
error values; side effects on the stores become an explicit event trace.
-/

/-- A JSON value, the result of a successful `json.loads`. -/
inductive Json where
  | null : Json
  | bool (b : Bool) : Json
  | num (n : Int) : Json
  | str (s : String) : Json
  | arr (elems : List Json) : Json
  | obj (fields : List (String × Json)) : Json

/-- Python `isinstance(v, list)` on a decoded JSON value. -/
def Json.isArr : Json → Bool
  | .arr _ => true
  | _ => false

/-- An `HTTPException`-shaped response error: HTTP status code and detail string. -/
structure HttpError where
  status : Nat
  detail : String
deriving DecidableEq

/-- The kinds of Python exception that matter to the handlers' `try/except`
ladders: `HTTPException` (re-raised as is), `ValueError`, and any other
exception (mapped to 500 at the handler boundary). -/
inductive PyExc where
  | httpExc (status : Nat) (detail : String) : PyExc
  | valueError (msg : String) : PyExc
  | otherExc (msg : String) : PyExc

/-- A media document as built by `upload_media` in routes_media.py and stored
in the document database.  `Option` fields model JSON null. -/
structure MediaDoc where
  id : String
  userId : String
  fileName : String
  originalFileName : String
  mediaType : String
  fileSize : Nat
  mimeType : String
  blobUrl : String
  thumbnailUrl : Option String
  description : Option String
  tags : Option Json
  uploadedAt : String
  updatedAt : String

/-- A user document as built by `register` in routes_auth.py. -/
structure UserDoc where
  id : String
  username : String
  email : String
  hashed_password : String
  created_at : String

/-- Python truthiness of an `Optional[str]`: `None` and the empty string are
falsy, every other string is truthy. -/
def optStrTruthy : Option String → Bool
  | none => false
  | some s => s ≠ ""

/-- Fuel-driven core of Python `str.replace` for a non-empty pattern:
scan left to right, replacing each non-overlapping occurrence of `pat`
by `rep`.  The fuel is the length of the scanned list, which bounds the
number of recursive steps. -/
def pyReplaceGo (pat rep : List Char) : Nat → List Char → List Char
  | _, [] => []
  | 0, l => l
  | Nat.succ fuel, c :: rest =>
    if List.isPrefixOf pat (c :: rest) then
      rep ++ pyReplaceGo pat rep fuel (List.drop pat.length (c :: rest))
    else
      c :: pyReplaceGo pat rep fuel rest

/-- Python `s.replace(pat, rep)` (replaces every non-overlapping occurrence,
left to right; an empty pattern matches at every position, as in Python). -/
def pyReplace (s pat rep : String) : String :=
  if pat = "" then
    rep ++ String.join (s.toList.map (fun c => String.mk [c] ++ rep))
  else
    String.mk (pyReplaceGo pat.toList rep.toList s.toList.length s.toList)

/-- Python `s.split(sep)` for a one-character separator, on character
lists: accumulates the current segment (reversed) and splits at every
separator occurrence.  Mirrors Python: the result is never empty, and
leading/trailing separators yield empty segments. -/
def pySplitGo (sep : Char) : List Char → List Char → List String
  | acc, [] => [String.mk acc.reverse]
  | acc, c :: rest =>
    if c = sep then String.mk acc.reverse :: pySplitGo sep [] rest
    else pySplitGo sep (c :: acc) rest

/-- Python `s.split("/")[-1]`: last component of splitting on a slash.
(the split result is never empty, so the default is unreachable.) -/
def lastPathSegment (s : String) : String :=
  (pySplitGo '/' [] s.toList).getLastD ""

/-- Embedding of `extract_thumbnail_blob_identifier` (media_helpers.py):
returns `none` when the document has no truthy `thumbnailUrl`; otherwise
substitutes the last path segment of `originalFileName` by its
`thumb_`-prefixed variant inside the stored `fileName`.  The typed model
has total field access, so the `except` branch of the Python code is
unreachable here. -/
def extract_thumbnail_blob_identifier (doc : MediaDoc) : Option String :=
  if optStrTruthy doc.thumbnailUrl = false then
    none
  else
    some (pyReplace doc.fileName (lastPathSegment doc.originalFileName)
      ("thumb_" ++ lastPathSegment doc.originalFileName))

/-- The thumbnail-name derivation as worded by the specification: the stored
`fileName` with (every occurrence of) the last path segment of
`originalFileName` replaced by the same segment prefixed with `thumb_`,
defined only when the document carries a non-empty `thumbnailUrl`.  This
definition follows the spec sentence, to be compared with the source
embedding `extract_thumbnail_blob_identifier`. -/
def thumbnail_identifier_spec (doc : MediaDoc) : Option String :=
  if optStrTruthy doc.thumbnailUrl then
    some (pyReplace doc.fileName (lastPathSegment doc.originalFileName)
      ("thumb_" ++ lastPathSegment doc.originalFileName))
  else
    none

/-- Embedding of `fetch_and_verify_media_ownership` (media_helpers.py).
`g` stands for `cosmos_db.get_media_by_id`. -/
def fetch_and_verify_media_ownership (g : String → String → Option MediaDoc)
    (media_id user_id : String) : Except HttpError MediaDoc :=
  match g media_id user_id with
  | none => .error ⟨404, "Media resource not found"⟩
  | some media_document =>
    if media_document.userId ≠ user_id then
      .error ⟨403, "Access denied: insufficient permissions for this media"⟩
    else
      .ok media_document

/-- Embedding of the `GET /media/media_id` handler `get_media_by_id`
(routes_media.py): fetch with ownership check, then return the record.
The helper only raises `HTTPException`, which the handler re-raises. -/
def get_media_by_id_route (g : String → String → Option MediaDoc)
    (media_id user_id : String) : Except HttpError MediaDoc :=
  fetch_and_verify_media_ownership g media_id user_id

/-- A multipart upload request as the `upload_media` handler sees it:
the file's name and declared content type, and the optional form fields. -/
structure UploadRequest where
  filename : String
  contentType : String
  description : Option String
  tags : Option String

/-- Observable store side effects of `upload_media`: a blob-store upload
(`blob_storage.upload_file`) with its owner, file name and content type, and
a document-store record creation (`cosmos_db.create_media`). -/
inductive UpEvent where
  | blobUpload (owner filename contentType : String) : UpEvent
  | createMedia (doc : MediaDoc) : UpEvent

/-- Environment of one `upload_media` request: outcomes of the external
collaborators.  `validateFileType` and `validateFileSize` are modelled from
the spec (utils.py is not among the sources): their only failure mode is an
`HTTPException` with status `BadRequest`, carried as the `.error` detail.
`parseJson` stands for the standard library `json.loads`, `none` meaning a
`json.JSONDecodeError`.  `blobUpload` may raise (`.error` is the exception
message); on success it returns the stored blob name and URL.
`generateThumbnail` is the best-effort `generate_thumbnail` outcome
(`none` when no thumbnail bytes were produced). -/
structure UploadEnv where
  validateFileType : Except String String
  validateFileSize : Except String Nat
  parseJson : String → Option Json
  blobUpload : String → String → String → Except String (String × String)
  generateThumbnail : Option (List Nat)
  createMedia : MediaDoc → Except String MediaDoc
  mediaId : String
  now : String

/-- The tags form-field handling of `upload_media` (routes_media.py lines
38-48): falsy tags are skipped; a `json.JSONDecodeError` is caught and turned
into an `HTTPException 400`; a decoded non-array raises a `ValueError` that
the `except json.JSONDecodeError` clause does NOT catch. -/
def parse_tags (pj : String → Option Json) (tags : Option String) :
    Except PyExc (Option Json) :=
  match tags with
  | none => .ok none
  | some t =>
    if t = "" then .ok none
    else
      match pj t with
      | none => .error (.httpExc 400 "Invalid tags format. Must be a JSON array.")
      | some v =>
        if v.isArr then .ok (some v)
        else .error (.valueError "Tags must be an array")

/-- The `media_doc` dictionary built by `upload_media` (routes_media.py
lines 76-90). -/
def make_media_doc (env : UploadEnv) (user_id : String) (req : UploadRequest)
    (asset_type : String) (payload_size : Nat) (tag_bundle : Option Json)
    (blob_name blob_url : String) (thumbnail_link : Option String) : MediaDoc :=
  { id := env.mediaId
    userId := user_id
    fileName := blob_name
    originalFileName := req.filename
    mediaType := asset_type
    fileSize := payload_size
    mimeType := req.contentType
    blobUrl := blob_url
    thumbnailUrl := thumbnail_link
    description := req.description
    tags := tag_bundle
    uploadedAt := env.now
    updatedAt := env.now }

/-- The best-effort thumbnail branch of `upload_media` (routes_media.py
lines 57-72): only for images with generated thumbnail bytes; the thumbnail
upload's failure is caught and logged, leaving the link `None`. -/
def thumbnail_step (env : UploadEnv) (user_id : String) (req : UploadRequest)
    (asset_type : String) : Option String × List UpEvent :=
  if asset_type = "image" then
    match env.generateThumbnail with
    | none => (none, [])
    | some _ =>
      match env.blobUpload user_id ("thumb_" ++ req.filename) "image/jpeg" with
      | .error _ =>
        (none, [UpEvent.blobUpload user_id ("thumb_" ++ req.filename) "image/jpeg"])
      | .ok p =>
        (some p.2, [UpEvent.blobUpload user_id ("thumb_" ++ req.filename) "image/jpeg"])
  else (none, [])

/-- Outcome of the `cosmos_db.create_media` call inside `upload_media`:
the created record on success; a raised store exception is not an
`HTTPException`, so it reaches the handler's generic `except` clause. -/
def upload_create_result : Except String MediaDoc → Except PyExc MediaDoc
  | .error m => .error (.otherExc m)
  | .ok created => .ok created

/-- The body of `upload_media`'s `try` block, before the handler's
`except` ladder, paired with the trace of store side effects. -/
def upload_media_try (env : UploadEnv) (user_id : String) (req : UploadRequest) :
    Except PyExc MediaDoc × List UpEvent :=
  match env.validateFileType with
  | .error d => (.error (.httpExc 400 d), [])
  | .ok asset_type =>
    match env.validateFileSize with
    | .error d => (.error (.httpExc 400 d), [])
    | .ok payload_size =>
      match parse_tags env.parseJson req.tags with
      | .error e => (.error e, [])
      | .ok tag_bundle =>
        match env.blobUpload user_id req.filename req.contentType with
        | .error m =>
          (.error (.otherExc m),
            [UpEvent.blobUpload user_id req.filename req.contentType])
        | .ok bp =>
          let ts := thumbnail_step env user_id req asset_type
          let doc := make_media_doc env user_id req asset_type payload_size
            tag_bundle bp.1 bp.2 ts.1
          (upload_create_result (env.createMedia doc),
            UpEvent.blobUpload user_id req.filename req.contentType ::
              ts.2 ++ [UpEvent.createMedia doc])

/-- The `except` ladder of `upload_media` (routes_media.py lines 96-103):
`HTTPException` is re-raised as is, every other exception becomes a 500
with the upload failure detail. -/
def upload_translate : Except PyExc MediaDoc → Except HttpError MediaDoc
  | .ok d => .ok d
  | .error (.httpExc s dd) => .error ⟨s, dd⟩
  | .error (.valueError m) => .error ⟨500, "Failed to upload media: " ++ m⟩
  | .error (.otherExc m) => .error ⟨500, "Failed to upload media: " ++ m⟩

/-- Embedding of the `POST /media` handler `upload_media` (routes_media.py):
the `try` body, then the `except` ladder. -/
def upload_media (env : UploadEnv) (user_id : String) (req : UploadRequest) :
    Except HttpError MediaDoc × List UpEvent :=
  (upload_translate (upload_media_try env user_id req).1,
    (upload_media_try env user_id req).2)

/-- The success payload of the auth endpoints: bearer token plus the public
user profile (`Token`/`UserResponse` in models.py). -/
structure TokenOut where
  token : String
  userId : String
  username : String
  email : String
  createdAt : String

/-- Observable store side effect of `register`: a `cosmos_db.create_user`
call with the new user document. -/
inductive RegEvent where
  | createUser (doc : UserDoc) : RegEvent

/-- Environment of one `register` request: `getUserByEmail` and `createUser`
stand for the document store, `hashPassword`/`createToken` for the
credential service, `userId`/`now` for uuid generation and the clock. -/
structure RegisterEnv where
  getUserByEmail : String → Option UserDoc
  hashPassword : String → String
  createUser : UserDoc → Except String UserDoc
  createToken : String → String → String
  userId : String
  now : String

/-- Embedding of the `POST /auth/register` handler `register`
(routes_auth.py): duplicate email raises `HTTPException 400`; otherwise the
user document is created, a token issued, and the token plus profile
returned.  An unexpected store failure maps to 500 at the boundary. -/
def register (env : RegisterEnv) (username email password : String) :
    Except HttpError TokenOut × List RegEvent :=
  match env.getUserByEmail email with
  | some _ => (.error ⟨400, "User with this email already exists"⟩, [])
  | none =>
    let user_doc : UserDoc :=
      { id := env.userId
        username := username
        email := email
        hashed_password := env.hashPassword password
        created_at := env.now }
    match env.createUser user_doc with
    | .error m =>
      (.error ⟨500, "Failed to register user: " ++ m⟩, [RegEvent.createUser user_doc])
    | .ok created =>
      (.ok
        { token := env.createToken env.userId email
          userId := created.id
          username := created.username
          email := created.email
          createdAt := created.created_at },
        [RegEvent.createUser user_doc])

/-- Environment of one `login` request: `getUserByEmail` stands for the
document store, `verifyPassword`/`createToken` for the credential service. -/
structure LoginEnv where
  getUserByEmail : String → Option UserDoc
  verifyPassword : String → String → Bool
  createToken : String → String → String

/-- Embedding of the `POST /auth/login` handler `login` (routes_auth.py):
unknown email and failed password verification both raise
`HTTPException 401` with the same generic detail; on success a token is
issued and returned with the profile. -/
def login (env : LoginEnv) (email password : String) : Except HttpError TokenOut :=
  match env.getUserByEmail email with
  | none => .error ⟨401, "Invalid email or password"⟩
  | some account_record =>
    if env.verifyPassword password account_record.hashed_password = false then
      .error ⟨401, "Invalid email or password"⟩
    else
      .ok
        { token := env.createToken account_record.id account_record.email
          userId := account_record.id
          username := account_record.username
          email := account_record.email
          createdAt := account_record.created_at }

/-- The `MediaUpdate` request model (models.py is not among the sources;
modelled from the spec: optional description and optional ordered list of
string tags, both nullable). -/
structure MediaUpdate where
  description : Option String
  tags : Option (List String)

/-- The `update_payload` dictionary built by `update_media_metadata`
(routes_media.py lines 198-204): `updatedAt` is always present;
`description` and `tags` are present exactly when the request supplied them
non-null (`none` here means the key is absent from the dictionary). -/
structure UpdatePayload where
  updatedAt : String
  description : Option String
  tags : Option Json

/-- Builds the `update_payload` dictionary exactly as the handler does. -/
def update_payload_of (u : MediaUpdate) (now : String) : UpdatePayload :=
  { updatedAt := now
    description := u.description
    tags := u.tags.map (fun l => Json.arr (l.map Json.str)) }

/-- Modelled from the spec: `cosmos_db.update_media` (database.py is not
among the sources) performs a partial update — each key present in the
payload overwrites that field of the stored document, every other field
keeps its prior value. -/
def update_media_apply (doc : MediaDoc) (p : UpdatePayload) : MediaDoc :=
  { doc with
    updatedAt := p.updatedAt
    description := match p.description with
      | some d => some d
      | none => doc.description
    tags := match p.tags with
      | some t => some t
      | none => doc.tags }

/-- Embedding of the `PUT /media/media_id` handler `update_media_metadata`
(routes_media.py): ownership-checked fetch, then the partial update with the
payload built from the request. -/
def update_media_metadata (g : String → String → Option MediaDoc)
    (media_id user_id : String) (u : MediaUpdate) (now : String) :
    Except HttpError MediaDoc :=
  match fetch_and_verify_media_ownership g media_id user_id with
  | .error e => .error e
  | .ok doc => .ok (update_media_apply doc (update_payload_of u now))

/-- Observable store side effects of `delete_media`: a blob-store delete
(`blob_storage.delete_file`) of a named blob, and a document-store record
delete (`cosmos_db.delete_media`). -/
inductive DelEvent where
  | blobDelete (name : String) : DelEvent
  | recordDelete (mediaId userId : String) : DelEvent
deriving DecidableEq

/-- Environment of one `delete_media` request: `getMediaById` and
`cosmosDelete` stand for the document store, `blobDelete` for the blob
store; an `.error` value is a raised exception's message. -/
structure DeleteEnv where
  getMediaById : String → String → Option MediaDoc
  blobDelete : String → Except String Unit
  cosmosDelete : String → String → Except String Unit

/-- The thumbnail-delete attempt of `delete_media` (routes_media.py lines
237-242): attempted only when the derived identifier is truthy; the
attempt's own failure is caught and logged.  The resulting trace therefore
does not depend on the blob store's answer. -/
def thumb_delete_events (doc : MediaDoc) : List DelEvent :=
  match extract_thumbnail_blob_identifier doc with
  | none => []
  | some t => if t = "" then [] else [DelEvent.blobDelete t]

/-- Embedding of the `DELETE /media/media_id` handler `delete_media`
(routes_media.py): ownership-checked fetch; primary blob delete whose
failure escapes to the boundary as a 500; best-effort thumbnail blob
delete; record delete whose failure also maps to 500. -/
def delete_media (env : DeleteEnv) (media_id user_id : String) :
    Except HttpError Unit × List DelEvent :=
  match fetch_and_verify_media_ownership env.getMediaById media_id user_id with
  | .error e => (.error e, [])
  | .ok media_record =>
    match env.blobDelete media_record.fileName with
    | .error _ =>
      (.error ⟨500, "Failed to delete media"⟩,
        [DelEvent.blobDelete media_record.fileName])
    | .ok _ =>
      match env.cosmosDelete media_id user_id with
      | .error _ =>
        (.error ⟨500, "Failed to delete media"⟩,
          DelEvent.blobDelete media_record.fileName ::
            thumb_delete_events media_record ++
            [DelEvent.recordDelete media_id user_id])
      | .ok _ =>
        (.ok (),
          DelEvent.blobDelete media_record.fileName ::
            thumb_delete_events media_record ++
            [DelEvent.recordDelete media_id user_id])

/-- A sample stored media document owned by user `alice`, with a thumbnail. -/
def sampleDoc : MediaDoc :=
  { id := "m1"
    userId := "alice"
    fileName := "alice/abc_photo.png"
    originalFileName := "photo.png"
    mediaType := "image"
    fileSize := 123
    mimeType := "image/png"
    blobUrl := "https://blob/alice/abc_photo.png"
    thumbnailUrl := some "https://blob/alice/abc_thumb_photo.png"
    description := some "a photo"
    tags := some (Json.arr [Json.str "x"])
    uploadedAt := "t0"
    updatedAt := "t0" }

/-- A sample stored media document without a thumbnail. -/
def noThumbDoc : MediaDoc :=
  { sampleDoc with id := "m3", thumbnailUrl := none }

/-- A sample stored user record. -/
def sampleUser : UserDoc :=
  { id := "u1"
    username := "alice"
    email := "a@x"
    hashed_password := "hashedpw"
    created_at := "t0" }

/-- A document store that returns `sampleDoc` for media id `m1` regardless
of which user asks (so the ownership check is exercised). -/
def anyUserStore : String → String → Option MediaDoc :=
  fun m _ => if m = "m1" then some sampleDoc else none

/-- A document store whose media query is keyed by user id, as the store
contract of claim C9 assumes. -/
def keyedStore : String → String → Option MediaDoc :=
  fun m u => if m = "m1" ∧ u = "alice" then some sampleDoc else none

/-- A login environment with one known user whose password never verifies. -/
def wrongPwEnv : LoginEnv :=
  { getUserByEmail := fun e => if e = "a@x" then some sampleUser else none
    verifyPassword := fun _ _ => false
    createToken := fun _ _ => "tok" }

/-- A register environment with one already-registered email. -/
def dupEmailEnv : RegisterEnv :=
  { getUserByEmail := fun e => if e = "a@x" then some sampleUser else none
    hashPassword := fun p => "h:" ++ p
    createUser := fun d => .ok d
    createToken := fun _ _ => "tok"
    userId := "u2"
    now := "t1" }

/-- A delete environment where the primary blob delete succeeds, the
thumbnail blob delete raises, and the record delete succeeds. -/
def thumbFailDeleteEnv : DeleteEnv :=
  { getMediaById := keyedStore
    blobDelete := fun n => if n = "alice/abc_photo.png" then .ok () else .error "boom"
    cosmosDelete := fun _ _ => .ok () }

/-- A delete environment where every blob delete raises. -/
def blobFailDeleteEnv : DeleteEnv :=
  { getMediaById := keyedStore
    blobDelete := fun _ => .error "io failure"
    cosmosDelete := fun _ _ => .ok () }

/-- An upload environment where every collaborator succeeds and the tags
string decodes to a (non-array) JSON object, as `json.loads` does on the
form value consisting of one opening and one closing curly brace. -/
def nonArrayTagsEnv : UploadEnv :=
  { validateFileType := .ok "video"
    validateFileSize := .ok 17
    parseJson := fun s => if s = "\x7b\x7d" then some (Json.obj []) else none
    blobUpload := fun _ _ _ => .ok ("bn", "bu")
    generateThumbnail := none
    createMedia := fun d => .ok d
    mediaId := "m9"
    now := "t2" }

/-- An upload request whose tags form field is the two-character string
consisting of an opening and a closing curly brace (valid JSON, not an
array). -/
def nonArrayTagsReq : UploadRequest :=
  { filename := "v.mp4"
    contentType := "video/mp4"
    description := none
    tags := some "\x7b\x7d" }

/-- An upload environment whose file-type validation fails. -/
def badTypeEnv : UploadEnv :=
  { nonArrayTagsEnv with validateFileType := .error "File type not allowed" }

/-- An upload environment whose file-size validation fails. -/
def badSizeEnv : UploadEnv :=
  { nonArrayTagsEnv with validateFileSize := .error "File too large" }

/-- An upload request whose tags form field is the empty string. -/
def emptyTagsReq : UploadRequest :=
  { nonArrayTagsReq with tags := some "" }

/-- Claim C3: a get-by-id request fails with 404 when the record is absent,
fails with 403 when the record exists but is owned by another user, and a
caller only ever receives a record whose owner is the caller. -/
theorem get_media_by_id_policy (g : String → String → Option MediaDoc)
    (media_id user_id : String) :
    (g media_id user_id = none →
      get_media_by_id_route g media_id user_id =
        .error ⟨404, "Media resource not found"⟩) ∧
    (∀ d, g media_id user_id = some d → d.userId ≠ user_id →
      get_media_by_id_route g media_id user_id =
        .error ⟨403, "Access denied: insufficient permissions for this media"⟩) ∧
    (∀ d, get_media_by_id_route g media_id user_id = .ok d → d.userId = user_id) := by
  refine ⟨?_, ?_, ?_⟩
  · intro h
    simp [get_media_by_id_route, fetch_and_verify_media_ownership, h]
  · intro d hd hne
    simp [get_media_by_id_route, fetch_and_verify_media_ownership, hd, hne]
  · intro d hok
    unfold get_media_by_id_route fetch_and_verify_media_ownership at hok
    cases hg : g media_id user_id with
    | none => rw [hg] at hok; exact absurd hok (by simp)
    | some d0 =>
      rw [hg] at hok
      by_cases hu : d0.userId = user_id
      · simp [hu] at hok
        rw [← hok]
        exact hu
      · simp [hu] at hok

/-- Witness for C3 at a concrete store: media id `m2` is absent (404) and
media `m1` owned by `alice` is requested by `bob` (403). -/
theorem get_media_by_id_policy_witness :
    get_media_by_id_route anyUserStore "m2" "bob" =
      .error ⟨404, "Media resource not found"⟩ ∧
    get_media_by_id_route anyUserStore "m1" "bob" =
      .error ⟨403, "Access denied: insufficient permissions for this media"⟩ :=
  ⟨(get_media_by_id_policy anyUserStore "m2" "bob").1 rfl,
   (get_media_by_id_policy anyUserStore "m1" "bob").2.1 sampleDoc rfl (by decide)⟩

/-- Claim C9: under the store contract that `get_media_by_id` only returns
documents whose owner is the queried user, the 403 branch of the ownership
check is unreachable: every request either succeeds on an owned record or
fails with 404. -/
theorem fetch_never_forbidden (g : String → String → Option MediaDoc)
    (hc : ∀ m u d, g m u = some d → d.userId = u) (media_id user_id : String) :
    fetch_and_verify_media_ownership g media_id user_id =
      .error ⟨404, "Media resource not found"⟩ ∨
    (∃ d, fetch_and_verify_media_ownership g media_id user_id = .ok d ∧
      d.userId = user_id) := by
  cases hg : g media_id user_id with
  | none =>
    left
    simp [fetch_and_verify_media_ownership, hg]
  | some d =>
    right
    refine ⟨d, ?_, hc media_id user_id d hg⟩
    simp [fetch_and_verify_media_ownership, hg, hc media_id user_id d hg]

/-- Witness for C9 at the keyed store: the contract holds there, so the
requests resolve without a 403. -/
theorem fetch_never_forbidden_witness :
    (fetch_and_verify_media_ownership keyedStore "m2" "bob" =
      .error ⟨404, "Media resource not found"⟩ ∨
    (∃ d, fetch_and_verify_media_ownership keyedStore "m2" "bob" = .ok d ∧
      d.userId = "bob")) ∧
    (fetch_and_verify_media_ownership keyedStore "m1" "bob" =
      .error ⟨404, "Media resource not found"⟩ ∨
    (∃ d, fetch_and_verify_media_ownership keyedStore "m1" "bob" = .ok d ∧
      d.userId = "bob")) := by
  have hc : ∀ m u d, keyedStore m u = some d → d.userId = u := by
    intro m u d h
    unfold keyedStore at h
    split at h
    · next hcond =>
      cases h
      rw [hcond.2]
      rfl
    · exact absurd h (by simp)
  exact ⟨fetch_never_forbidden keyedStore hc "m2" "bob",
    fetch_never_forbidden keyedStore hc "m1" "bob"⟩

/-- Claim C6: a login with an unknown email and a login with a known email
but failing password verification both fail with the identical 401 error,
so the two failures are indistinguishable. -/
theorem login_no_existence_leak (env : LoginEnv)
    (email1 password1 email2 password2 : String) (u : UserDoc)
    (h1 : env.getUserByEmail email1 = none)
    (h2 : env.getUserByEmail email2 = some u)
    (h3 : env.verifyPassword password2 u.hashed_password = false) :
    login env email1 password1 = .error ⟨401, "Invalid email or password"⟩ ∧
    login env email2 password2 = .error ⟨401, "Invalid email or password"⟩ ∧
    login env email1 password1 = login env email2 password2 := by
  refine ⟨?_, ?_, ?_⟩
  · simp [login, h1]
  · simp [login, h2, h3]
  · simp [login, h1, h2, h3]

/-- Witness for C6: unknown email `b@x` and known email `a@x` with a wrong
password yield literally the same 401 response. -/
theorem login_no_existence_leak_witness :
    login wrongPwEnv "b@x" "pw1" = .error ⟨401, "Invalid email or password"⟩ ∧
    login wrongPwEnv "a@x" "pw2" = .error ⟨401, "Invalid email or password"⟩ ∧
    login wrongPwEnv "b@x" "pw1" = login wrongPwEnv "a@x" "pw2" :=
  login_no_existence_leak wrongPwEnv "b@x" "pw1" "a@x" "pw2" sampleUser rfl rfl rfl

/-- Counterexample to claim C2 as stated: on a duplicate email the register
handler responds with HTTP status 400 (BadRequest), not 409 (Conflict). -/
theorem register_duplicate_not_conflict :
    (register dupEmailEnv "bob" "a@x" "pw").1 =
      .error ⟨400, "User with this email already exists"⟩ ∧
    (400 : Nat) ≠ 409 :=
  ⟨rfl, by decide⟩

/-- Claim C2 (amended): on a duplicate email the register handler fails with
BadRequest (HTTP 400, duplicate-email detail) and performs no user-record
creation. -/
theorem register_duplicate_email (env : RegisterEnv)
    (username email password : String) (u : UserDoc)
    (h : env.getUserByEmail email = some u) :
    register env username email password =
      (.error ⟨400, "User with this email already exists"⟩, []) := by
  simp [register, h]

/-- Witness for the amended C2 at the concrete duplicate-email store. -/
theorem register_duplicate_email_witness :
    register dupEmailEnv "bob" "a@x" "pw" =
      (.error ⟨400, "User with this email already exists"⟩, []) :=
  register_duplicate_email dupEmailEnv "bob" "a@x" "pw" sampleUser rfl

/-- Claim C8: for a document with a truthy (non-empty) `thumbnailUrl` the
derived thumbnail identifier is the stored `fileName` with the last path
segment of `originalFileName` replaced by its `thumb_`-prefixed variant
(the derivation agrees with the spec-worded definition); for a document
without one the derivation returns `none` and no thumbnail delete is
attempted. -/
theorem extract_thumbnail_matches_spec (doc : MediaDoc) :
    extract_thumbnail_blob_identifier doc = thumbnail_identifier_spec doc ∧
    (optStrTruthy doc.thumbnailUrl = true →
      extract_thumbnail_blob_identifier doc =
        some (pyReplace doc.fileName (lastPathSegment doc.originalFileName)
          ("thumb_" ++ lastPathSegment doc.originalFileName))) ∧
    (optStrTruthy doc.thumbnailUrl = false →
      extract_thumbnail_blob_identifier doc = none ∧
      thumb_delete_events doc = []) := by
  refine ⟨?_, ?_, ?_⟩
  · unfold extract_thumbnail_blob_identifier thumbnail_identifier_spec
    cases h : optStrTruthy doc.thumbnailUrl <;> simp [h]
  · intro h
    simp [extract_thumbnail_blob_identifier, h]
  · intro h
    refine ⟨?_, ?_⟩
    · simp [extract_thumbnail_blob_identifier, h]
    · simp [thumb_delete_events, extract_thumbnail_blob_identifier, h]

/-- Witness for C8: on `sampleDoc` the derivation yields the `thumb_`
variant (concretely `alice/abc_thumb_photo.png`); on `noThumbDoc` it yields
`none` and the delete trace schedules no thumbnail delete. -/
theorem extract_thumbnail_matches_spec_witness :
    extract_thumbnail_blob_identifier sampleDoc =
      some (pyReplace sampleDoc.fileName (lastPathSegment sampleDoc.originalFileName)
        ("thumb_" ++ lastPathSegment sampleDoc.originalFileName)) ∧
    extract_thumbnail_blob_identifier sampleDoc = some "alice/abc_thumb_photo.png" ∧
    extract_thumbnail_blob_identifier noThumbDoc = none ∧
    thumb_delete_events noThumbDoc = [] :=
  ⟨(extract_thumbnail_matches_spec sampleDoc).2.1 rfl, rfl,
   ((extract_thumbnail_matches_spec noThumbDoc).2.2 rfl).1,
   ((extract_thumbnail_matches_spec noThumbDoc).2.2 rfl).2⟩

/-- Claim C5: on an owned record, the update payload carries `updatedAt`
always, `description` and `tags` exactly when supplied non-null, and nothing
else; applying it leaves every other field of the record unchanged, and
omitted description/tags keep their prior values. -/
theorem update_media_frame (g : String → String → Option MediaDoc)
    (media_id user_id : String) (u : MediaUpdate) (now : String) (doc : MediaDoc)
    (hg : g media_id user_id = some doc) (hown : doc.userId = user_id) :
    update_media_metadata g media_id user_id u now =
      .ok (update_media_apply doc (update_payload_of u now)) ∧
    (update_payload_of u now).updatedAt = now ∧
    (update_payload_of u now).description = u.description ∧
    ((update_payload_of u now).tags = none ↔ u.tags = none) ∧
    (update_media_apply doc (update_payload_of u now)).id = doc.id ∧
    (update_media_apply doc (update_payload_of u now)).userId = doc.userId ∧
    (update_media_apply doc (update_payload_of u now)).fileName = doc.fileName ∧
    (update_media_apply doc (update_payload_of u now)).originalFileName =
      doc.originalFileName ∧
    (update_media_apply doc (update_payload_of u now)).mediaType = doc.mediaType ∧
    (update_media_apply doc (update_payload_of u now)).fileSize = doc.fileSize ∧
    (update_media_apply doc (update_payload_of u now)).mimeType = doc.mimeType ∧
    (update_media_apply doc (update_payload_of u now)).blobUrl = doc.blobUrl ∧
    (update_media_apply doc (update_payload_of u now)).thumbnailUrl =
      doc.thumbnailUrl ∧
    (update_media_apply doc (update_payload_of u now)).uploadedAt =
      doc.uploadedAt ∧
    (update_media_apply doc (update_payload_of u now)).updatedAt = now ∧
    (u.description = none →
      (update_media_apply doc (update_payload_of u now)).description =
        doc.description) ∧
    (u.tags = none →
      (update_media_apply doc (update_payload_of u now)).tags = doc.tags) := by
  refine ⟨?_, rfl, rfl, ?_, rfl, rfl, rfl, rfl, rfl, rfl, rfl, rfl, rfl, rfl,
    rfl, ?_, ?_⟩
  · simp [update_media_metadata, fetch_and_verify_media_ownership, hg, hown]
  · cases htag : u.tags <;> simp [update_payload_of, htag]
  · intro h
    simp [update_media_apply, update_payload_of, h]
  · intro h
    simp [update_media_apply, update_payload_of, h]

/-- Witness for C5: updating `m1` owned by `alice` with a fresh description
and no tags yields the partially-updated record. -/
theorem update_media_frame_witness :
    update_media_metadata keyedStore "m1" "alice"
      { description := some "new", tags := none } "t9" =
      .ok (update_media_apply sampleDoc
        (update_payload_of { description := some "new", tags := none } "t9")) ∧
    (update_media_apply sampleDoc
      (update_payload_of { description := some "new", tags := none } "t9")).tags =
      sampleDoc.tags :=
  ⟨(update_media_frame keyedStore "m1" "alice"
      { description := some "new", tags := none } "t9" sampleDoc rfl rfl).1,
   (update_media_frame keyedStore "m1" "alice"
      { description := some "new", tags := none } "t9" sampleDoc rfl rfl).2.2.2.2.2.2.2.2.2.2.2.2.2.2.2.2 rfl⟩

/-- Claim C4: deleting an owned record deletes the primary blob first; when
the primary blob delete raises, the request fails with 500 and neither the
thumbnail delete nor the record delete runs; when it succeeds, the trace is
primary blob delete, then (when derivable and truthy) the thumbnail blob
delete, then the record delete — and the request outcome is independent of
the thumbnail delete, succeeding whenever the record delete succeeds. -/
theorem delete_media_ordering (env : DeleteEnv) (media_id user_id : String)
    (doc : MediaDoc)
    (hg : env.getMediaById media_id user_id = some doc)
    (hown : doc.userId = user_id) :
    (∀ e, env.blobDelete doc.fileName = .error e →
      delete_media env media_id user_id =
        (.error ⟨500, "Failed to delete media"⟩,
          [DelEvent.blobDelete doc.fileName])) ∧
    (env.blobDelete doc.fileName = .ok () →
      (delete_media env media_id user_id).2 =
        DelEvent.blobDelete doc.fileName :: thumb_delete_events doc ++
          [DelEvent.recordDelete media_id user_id] ∧
      (env.cosmosDelete media_id user_id = .ok () →
        (delete_media env media_id user_id).1 = .ok ())) := by
  constructor
  · intro e he
    simp [delete_media, fetch_and_verify_media_ownership, hg, hown, he]
  · intro hok
    constructor
    · cases hc : env.cosmosDelete media_id user_id <;>
        simp [delete_media, fetch_and_verify_media_ownership, hg, hown, hok, hc]
    · intro hc
      simp [delete_media, fetch_and_verify_media_ownership, hg, hown, hok, hc]

/-- Witness for C4: with a failing primary blob delete the record survives
and the request is a 500; with a succeeding primary delete but a raising
thumbnail delete, the trace still ends with the record delete and the
request succeeds. -/
theorem delete_media_ordering_witness :
    delete_media blobFailDeleteEnv "m1" "alice" =
      (.error ⟨500, "Failed to delete media"⟩,
        [DelEvent.blobDelete "alice/abc_photo.png"]) ∧
    (delete_media thumbFailDeleteEnv "m1" "alice").2 =
      DelEvent.blobDelete "alice/abc_photo.png" :: thumb_delete_events sampleDoc ++
        [DelEvent.recordDelete "m1" "alice"] ∧
    (delete_media thumbFailDeleteEnv "m1" "alice").1 = .ok () :=
  ⟨(delete_media_ordering blobFailDeleteEnv "m1" "alice" sampleDoc rfl rfl).1
      "io failure" rfl,
   ((delete_media_ordering thumbFailDeleteEnv "m1" "alice" sampleDoc rfl rfl).2
      rfl).1,
   ((delete_media_ordering thumbFailDeleteEnv "m1" "alice" sampleDoc rfl rfl).2
      rfl).2 rfl⟩

/-- The best-effort thumbnail branch only ever touches the blob store: its
trace never contains a record creation. -/
theorem thumbnail_step_no_createMedia (env : UploadEnv) (user_id : String)
    (req : UploadRequest) (asset_type : String) (d : MediaDoc) :
    UpEvent.createMedia d ∉ (thumbnail_step env user_id req asset_type).2 := by
  unfold thumbnail_step
  by_cases ha : asset_type = "image"
  · simp only [ha, if_pos rfl]
    cases env.generateThumbnail with
    | none => simp
    | some bytes =>
      cases env.blobUpload user_id ("thumb_" ++ req.filename) "image/jpeg" with
      | error m => simp
      | ok p => simp
  · simp [ha]

/-- Every record-creation event in an upload trace carries the tag bundle
that the tags form field parsed to. -/
theorem upload_createMedia_tags (env : UploadEnv) (user_id : String)
    (req : UploadRequest) (tb : Option Json)
    (hp : parse_tags env.parseJson req.tags = .ok tb) (d : MediaDoc)
    (hd : UpEvent.createMedia d ∈ (upload_media env user_id req).2) :
    d.tags = tb := by
  have hd' : UpEvent.createMedia d ∈ (upload_media_try env user_id req).2 := hd
  unfold upload_media_try at hd'
  cases h1 : env.validateFileType with
  | error dd => simp [h1] at hd'
  | ok asset_type =>
    cases h2 : env.validateFileSize with
    | error dd => simp [h1, h2] at hd'
    | ok payload_size =>
      cases h3 : env.blobUpload user_id req.filename req.contentType with
      | error m => simp [h1, h2, h3, hp] at hd'
      | ok bp =>
        simp only [h1, h2, h3, hp] at hd'
        rcases List.mem_cons.mp hd' with h | h
        · exact absurd h (by simp)
        · rcases List.mem_append.mp h with h | h
          · exact absurd h (thumbnail_step_no_createMedia env user_id req asset_type d)
          · have heq := List.mem_singleton.mp h
            injection heq with hdoc
            rw [hdoc]
            rfl

/-- Claim C7: when the file-type or the file-size validation fails, the
upload request is rejected with BadRequest (400) and its side-effect trace
is empty — in particular no blob-store upload is performed. -/
theorem upload_validation_before_blob (env : UploadEnv) (user_id : String)
    (req : UploadRequest) :
    (∀ d, env.validateFileType = .error d →
      upload_media env user_id req = (.error ⟨400, d⟩, [])) ∧
    (∀ t d, env.validateFileType = .ok t → env.validateFileSize = .error d →
      upload_media env user_id req = (.error ⟨400, d⟩, [])) := by
  constructor
  · intro d h
    simp [upload_media, upload_media_try, upload_translate, h]
  · intro t d ht h
    simp [upload_media, upload_media_try, upload_translate, ht, h]

/-- Witness for C7: a failing type validation and a failing size validation
each produce a 400 with an empty trace. -/
theorem upload_validation_before_blob_witness :
    upload_media badTypeEnv "alice" nonArrayTagsReq =
      (.error ⟨400, "File type not allowed"⟩, []) ∧
    upload_media badSizeEnv "alice" nonArrayTagsReq =
      (.error ⟨400, "File too large"⟩, []) :=
  ⟨(upload_validation_before_blob badTypeEnv "alice" nonArrayTagsReq).1
      "File type not allowed" rfl,
   (upload_validation_before_blob badSizeEnv "alice" nonArrayTagsReq).2
      "video" "File too large" rfl rfl⟩

/-- Claim C1 (divergence): a tags form field that decodes to valid JSON but
not to an array makes `upload_media` respond with a 500 InternalServerError
(the `ValueError` escapes the `except json.JSONDecodeError` clause), not the
400 BadRequest the specification requires; no media record is created
(the trace is empty). -/
theorem upload_nonarray_tags_gives_500 :
    upload_media nonArrayTagsEnv "alice" nonArrayTagsReq =
      (.error ⟨500, "Failed to upload media: Tags must be an array"⟩, []) ∧
    (500 : Nat) ≠ 400 :=
  ⟨rfl, by decide⟩

/-- Claim C10: an upload whose tags form field is the empty string behaves
exactly like an upload without a tags field: the result and trace coincide
with the tags-absent request, they are independent of the JSON decoder, and
any record created carries a null tags field. -/
theorem upload_empty_tags_treated_absent (env : UploadEnv) (user_id : String)
    (req : UploadRequest) (h : req.tags = some "") :
    upload_media env user_id req =
      upload_media env user_id { req with tags := none } ∧
    (∀ pj, upload_media { env with parseJson := pj } user_id req =
      upload_media env user_id req) ∧
    (∀ d, UpEvent.createMedia d ∈ (upload_media env user_id req).2 →
      d.tags = none) := by
  obtain ⟨fn, ct, ds, tg⟩ := req
  have htg : tg = some "" := h
  subst htg
  refine ⟨rfl, fun pj => rfl, ?_⟩
  intro d hd
  exact upload_createMedia_tags env user_id ⟨fn, ct, ds, some ""⟩ none rfl d hd

/-- Witness for C10: with every collaborator succeeding, the empty-tags
request equals the tags-absent request, and swapping in a JSON decoder that
rejects everything changes nothing. -/
theorem upload_empty_tags_treated_absent_witness :
    upload_media nonArrayTagsEnv "alice" emptyTagsReq =
      upload_media nonArrayTagsEnv "alice" { emptyTagsReq with tags := none } ∧
    upload_media { nonArrayTagsEnv with parseJson := fun _ => none } "alice"
      emptyTagsReq = upload_media nonArrayTagsEnv "alice" emptyTagsReq :=
  ⟨(upload_empty_tags_treated_absent nonArrayTagsEnv "alice" emptyTagsReq rfl).1,
   (upload_empty_tags_treated_absent nonArrayTagsEnv "alice" emptyTagsReq
      rfl).2.1 (fun _ => none)⟩
